/-
  Verification of the analytical plasmonic-resonance model for a metallic
  triangular nanoprism (kondorskiy/triangle, src/triangle.cpp).

  The C++ source is shallowly embedded over exact real (and complex)
  arithmetic: the cubic Lagrange interpolator, the tabulated dielectric
  functions of silver and gold (with their embedded reference tables as
  rational constants), the size-dependent Drude corrections, the dipole
  polarizability, the scattering and extinction cross sections, and the
  volume-equivalent sphere diameter.
-/
import Mathlib

set_option maxHeartbeats 4000000
set_option maxRecDepth 100000

noncomputable section

/-! ## Interpolator (src/triangle.cpp, interpolate, lines 100-127) -/

/-- The 4-point Lagrange cubic evaluated at v, exactly as written in the
return expression of interpolate. -/
def lagrange4 (x0 x1 x2 x3 y0 y1 y2 y3 v : ℝ) : ℝ :=
  (v - x1)*(v - x2)*(v - x3)*y0/((x0 - x1)*(x0 - x2)*(x0 - x3))
    + (v - x0)*(v - x2)*(v - x3)*y1/((x1 - x0)*(x1 - x2)*(x1 - x3))
    + (v - x0)*(v - x1)*(v - x3)*y2/((x2 - x0)*(x2 - x1)*(x2 - x3))
    + (v - x0)*(v - x1)*(v - x2)*y3/((x3 - x0)*(x3 - x1)*(x3 - x2))

/-- One iteration of the index-search loop of interpolate: state is the pair
(i, flag); on index j the state becomes (j-1, false) when the flag is still
set and the table value at j exceeds v, and is unchanged otherwise. -/
def scanStep (x : ℕ → ℝ) (v : ℝ) : (ℕ × Bool) → ℕ → (ℕ × Bool) :=
  fun st j => if st.2 ∧ x j > v then (j - 1, false) else st

/-- The index-search loop of interpolate: j runs over 1,...,n-1 starting from
the state (0, true); the first component of the final state is returned. -/
def scanIdx (n : ℕ) (x : ℕ → ℝ) (v : ℝ) : ℕ :=
  ((List.range' 1 (n - 1)).foldl (scanStep x v) (0, true)).1

/-- The clamping of the found index in interpolate: first raised to at
least 1, then lowered to at most n-3. -/
def clampIdx (n : ℕ) (x : ℕ → ℝ) (v : ℝ) : ℕ :=
  let i0 := scanIdx n x v
  let i1 := if i0 < 1 then 1 else i0
  if i1 > n - 3 then n - 3 else i1

/-- Embedding of interpolate(n, x_arr, y_arr, x_val): search and clamp the
window index, then evaluate the 4-point Lagrange formula on the window
of indices i-1, i, i+1, i+2. -/
def interpolate (n : ℕ) (x y : ℕ → ℝ) (v : ℝ) : ℝ :=
  let i := clampIdx n x v
  lagrange4 (x (i-1)) (x i) (x (i+1)) (x (i+2)) (y (i-1)) (y i) (y (i+1)) (y (i+2)) v

/-- Modelled from the spec (section 4.1): the window index described by the
specification, namely the largest index i with x i ≤ v (0 when there is
none), clamped to the range [1, n-3]. -/
def specWindowIdx (n : ℕ) (x : ℕ → ℝ) (v : ℝ) : ℕ :=
  max 1 (min (n - 3) (Nat.findGreatest (fun i => x i ≤ v) (n - 1)))

/-- Modelled from the spec (claims C4/C5): evaluation of a cubic polynomial
with coefficients a0..a3 at t. -/
def cubicEval (a0 a1 a2 a3 t : ℝ) : ℝ :=
  a0 + a1*t + a2*t^2 + a3*t^3

/-! ### Behaviour of the index-search loop -/

theorem scanFold_false (x : ℕ → ℝ) (v : ℝ) (l : List ℕ) (i : ℕ) :
    l.foldl (scanStep x v) (i, false) = (i, false) := by
  induction l with
  | nil => rfl
  | cons a l ih =>
      rw [List.foldl_cons]
      have h : scanStep x v (i, false) a = (i, false) := by
        simp [scanStep]
      rw [h, ih]

theorem scanFold_none (x : ℕ → ℝ) (v : ℝ) (l : List ℕ) (i : ℕ)
    (h : ∀ j ∈ l, ¬ x j > v) :
    l.foldl (scanStep x v) (i, true) = (i, true) := by
  induction l with
  | nil => rfl
  | cons a l ih =>
      rw [List.foldl_cons]
      have ha : scanStep x v (i, true) a = (i, true) := by
        have := h a (by simp)
        simp [scanStep, this]
      rw [ha]
      exact ih (fun j hj => h j (by simp [hj]))

theorem scanFold_found (x : ℕ → ℝ) (v : ℝ) (l1 l2 : List ℕ) (j : ℕ)
    (h1 : ∀ j' ∈ l1, ¬ x j' > v) (hj : x j > v) :
    (l1 ++ j :: l2).foldl (scanStep x v) (0, true) = (j - 1, false) := by
  rw [List.foldl_append, scanFold_none x v l1 0 h1, List.foldl_cons]
  have h : scanStep x v (0, true) j = (j - 1, false) := by
    simp [scanStep, hj]
  rw [h, scanFold_false]

theorem scanIdx_of_none (n : ℕ) (x : ℕ → ℝ) (v : ℝ)
    (h : ∀ j, 1 ≤ j → j ≤ n - 1 → ¬ x j > v) :
    scanIdx n x v = 0 := by
  unfold scanIdx
  rw [scanFold_none]
  intro j hj
  have hj' := List.mem_range'_1.mp hj
  exact h j hj'.1 (by omega)

theorem scanIdx_of_found (n : ℕ) (x : ℕ → ℝ) (v : ℝ) (j : ℕ)
    (hj1 : 1 ≤ j) (hj2 : j ≤ n - 1)
    (hlow : ∀ j', 1 ≤ j' → j' < j → ¬ x j' > v) (hj : x j > v) :
    scanIdx n x v = j - 1 := by
  unfold scanIdx
  have hsplit : List.range' 1 (n - 1) =
      List.range' 1 (j - 1) ++ j :: List.range' (j + 1) (n - 1 - j) := by
    have h1 : List.range' j (n - j) = j :: List.range' (j + 1) (n - 1 - j) := by
      have hc : n - j = (n - 1 - j) + 1 := by omega
      rw [hc, List.range'_succ]
    have h2 := List.range'_append 1 (j - 1) (n - j) 1
    have he1 : 1 + 1 * (j - 1) = j := by omega
    have he2 : (n - j) + (j - 1) = n - 1 := by omega
    rw [he1, he2, h1] at h2
    exact h2.symm
  rw [hsplit, scanFold_found]
  · intro j' hj'
    have hm := List.mem_range'_1.mp hj'
    exact hlow j' hm.1 (by omega)
  · exact hj

theorem clampIdx_eq_clamp (n : ℕ) (x : ℕ → ℝ) (v : ℝ) (hn : 4 ≤ n) :
    clampIdx n x v = max 1 (min (n - 3) (scanIdx n x v)) := by
  unfold clampIdx
  dsimp only
  split_ifs <;> omega

theorem clampIdx_ge_one (n : ℕ) (x : ℕ → ℝ) (v : ℝ) (hn : 4 ≤ n) :
    1 ≤ clampIdx n x v := by
  rw [clampIdx_eq_clamp n x v hn]; omega

theorem clampIdx_le (n : ℕ) (x : ℕ → ℝ) (v : ℝ) (hn : 4 ≤ n) :
    clampIdx n x v ≤ n - 3 := by
  rw [clampIdx_eq_clamp n x v hn]
  omega

/-! ### Monotone tables -/

theorem table_mono_le (n : ℕ) (x : ℕ → ℝ)
    (hm : ∀ j, j + 1 ≤ n - 1 → x j < x (j + 1)) :
    ∀ a b, a ≤ b → b ≤ n - 1 → x a ≤ x b := by
  intro a b hab hb
  induction b with
  | zero =>
      have : a = 0 := by omega
      simp [this]
  | succ b ih =>
      rcases Nat.eq_or_lt_of_le hab with h | h
      · simp [h]
      · have ha : a ≤ b := by omega
        have hb' : b ≤ n - 1 := by omega
        exact le_trans (ih ha hb') (le_of_lt (hm b (by omega)))

theorem table_mono_lt (n : ℕ) (x : ℕ → ℝ)
    (hm : ∀ j, j + 1 ≤ n - 1 → x j < x (j + 1)) :
    ∀ a b, a < b → b ≤ n - 1 → x a < x b := by
  intro a b hab hb
  have h1 : x a ≤ x (b - 1) := table_mono_le n x hm a (b - 1) (by omega) (by omega)
  have h2 : x (b - 1) < x b := by
    have := hm (b - 1) (by omega)
    have hb1 : b - 1 + 1 = b := by omega
    rwa [hb1] at this
  exact lt_of_le_of_lt h1 h2

/-! ### Algebra of the 4-point Lagrange formula -/

theorem interpolate_eq_lagrange4 (n : ℕ) (x y : ℕ → ℝ) (v : ℝ) :
    interpolate n x y v =
      lagrange4 (x (clampIdx n x v - 1)) (x (clampIdx n x v)) (x (clampIdx n x v + 1))
        (x (clampIdx n x v + 2)) (y (clampIdx n x v - 1)) (y (clampIdx n x v))
        (y (clampIdx n x v + 1)) (y (clampIdx n x v + 2)) v := rfl

theorem lagrange4_cubic (x0 x1 x2 x3 a0 a1 a2 a3 v : ℝ)
    (h01 : x0 ≠ x1) (h02 : x0 ≠ x2) (h03 : x0 ≠ x3)
    (h12 : x1 ≠ x2) (h13 : x1 ≠ x3) (h23 : x2 ≠ x3) :
    lagrange4 x0 x1 x2 x3 (cubicEval a0 a1 a2 a3 x0) (cubicEval a0 a1 a2 a3 x1)
      (cubicEval a0 a1 a2 a3 x2) (cubicEval a0 a1 a2 a3 x3) v
      = cubicEval a0 a1 a2 a3 v := by
  have d01 : x0 - x1 ≠ 0 := sub_ne_zero.mpr h01
  have d02 : x0 - x2 ≠ 0 := sub_ne_zero.mpr h02
  have d03 : x0 - x3 ≠ 0 := sub_ne_zero.mpr h03
  have d10 : x1 - x0 ≠ 0 := sub_ne_zero.mpr h01.symm
  have d12 : x1 - x2 ≠ 0 := sub_ne_zero.mpr h12
  have d13 : x1 - x3 ≠ 0 := sub_ne_zero.mpr h13
  have d20 : x2 - x0 ≠ 0 := sub_ne_zero.mpr h02.symm
  have d21 : x2 - x1 ≠ 0 := sub_ne_zero.mpr h12.symm
  have d23 : x2 - x3 ≠ 0 := sub_ne_zero.mpr h23
  have d30 : x3 - x0 ≠ 0 := sub_ne_zero.mpr h03.symm
  have d31 : x3 - x1 ≠ 0 := sub_ne_zero.mpr h13.symm
  have d32 : x3 - x2 ≠ 0 := sub_ne_zero.mpr h23.symm
  unfold lagrange4 cubicEval
  field_simp
  ring

theorem lagrange4_node0 (x0 x1 x2 x3 y0 y1 y2 y3 : ℝ)
    (h01 : x0 ≠ x1) (h02 : x0 ≠ x2) (h03 : x0 ≠ x3) :
    lagrange4 x0 x1 x2 x3 y0 y1 y2 y3 x0 = y0 := by
  have d01 : x0 - x1 ≠ 0 := sub_ne_zero.mpr h01
  have d02 : x0 - x2 ≠ 0 := sub_ne_zero.mpr h02
  have d03 : x0 - x3 ≠ 0 := sub_ne_zero.mpr h03
  unfold lagrange4
  rw [show x0 - x0 = 0 from sub_self x0]
  field_simp

theorem lagrange4_node1 (x0 x1 x2 x3 y0 y1 y2 y3 : ℝ)
    (h10 : x1 ≠ x0) (h12 : x1 ≠ x2) (h13 : x1 ≠ x3) :
    lagrange4 x0 x1 x2 x3 y0 y1 y2 y3 x1 = y1 := by
  have d10 : x1 - x0 ≠ 0 := sub_ne_zero.mpr h10
  have d12 : x1 - x2 ≠ 0 := sub_ne_zero.mpr h12
  have d13 : x1 - x3 ≠ 0 := sub_ne_zero.mpr h13
  unfold lagrange4
  rw [show x1 - x1 = 0 from sub_self x1]
  field_simp

theorem lagrange4_node2 (x0 x1 x2 x3 y0 y1 y2 y3 : ℝ)
    (h20 : x2 ≠ x0) (h21 : x2 ≠ x1) (h23 : x2 ≠ x3) :
    lagrange4 x0 x1 x2 x3 y0 y1 y2 y3 x2 = y2 := by
  have d20 : x2 - x0 ≠ 0 := sub_ne_zero.mpr h20
  have d21 : x2 - x1 ≠ 0 := sub_ne_zero.mpr h21
  have d23 : x2 - x3 ≠ 0 := sub_ne_zero.mpr h23
  unfold lagrange4
  rw [show x2 - x2 = 0 from sub_self x2]
  field_simp

/-! ### The scan index versus the window index described by the spec -/

theorem scanIdx_eq_findGreatest (n : ℕ) (x : ℕ → ℝ) (v : ℝ) (hn : 4 ≤ n)
    (hm : ∀ j, j + 1 ≤ n - 1 → x j < x (j + 1)) (hv : v < x (n - 1)) :
    scanIdx n x v = Nat.findGreatest (fun i => x i ≤ v) (n - 1) := by
  by_cases h0 : v < x 0
  · have hfg : Nat.findGreatest (fun i => x i ≤ v) (n - 1) = 0 := by
      rw [Nat.findGreatest_eq_zero_iff]
      intro k hk hk' hP
      have : x 0 ≤ x k := table_mono_le n x hm 0 k (Nat.zero_le _) hk'
      exact absurd (lt_of_lt_of_le h0 this) (not_lt.mpr hP)
    rw [hfg]
    have h1 : x 1 > v := by
      have : x 0 < x 1 := hm 0 (by omega)
      exact gt_of_gt_of_ge (gt_of_gt_of_ge this (le_of_lt h0)) (le_refl v)
    have := scanIdx_of_found n x v 1 (le_refl 1) (by omega)
      (fun j' hj1 hj2 => absurd hj1 (by omega)) h1
    simpa using this
  · push_neg at h0
    have hPm : x (Nat.findGreatest (fun i => x i ≤ v) (n - 1)) ≤ v :=
      @Nat.findGreatest_spec 0 (fun i => x i ≤ v) _ (n - 1) (Nat.zero_le (n - 1)) h0
    have hm_le : Nat.findGreatest (fun i => x i ≤ v) (n - 1) ≤ n - 1 :=
      Nat.findGreatest_le (n - 1)
    have hm_ne : Nat.findGreatest (fun i => x i ≤ v) (n - 1) ≠ n - 1 := by
      intro h
      rw [h] at hPm
      exact absurd hv (not_lt.mpr hPm)
    have hm1 : Nat.findGreatest (fun i => x i ≤ v) (n - 1) + 1 ≤ n - 1 := by omega
    have hnext : x (Nat.findGreatest (fun i => x i ≤ v) (n - 1) + 1) > v := by
      have h := Nat.findGreatest_is_greatest
        (Nat.lt_succ_self (Nat.findGreatest (fun i => x i ≤ v) (n - 1))) hm1
      exact lt_of_not_ge h
    have hs := scanIdx_of_found n x v (Nat.findGreatest (fun i => x i ≤ v) (n - 1) + 1)
      (by omega) hm1 ?_ hnext
    · simpa using hs
    · intro j' hj1 hj2
      have hj' : j' ≤ Nat.findGreatest (fun i => x i ≤ v) (n - 1) := by omega
      have : x j' ≤ x (Nat.findGreatest (fun i => x i ≤ v) (n - 1)) :=
        table_mono_le n x hm j' _ hj' (by omega)
      exact not_lt.mpr (le_trans this hPm)

theorem scanIdx_of_tail (n : ℕ) (x : ℕ → ℝ) (v : ℝ)
    (hm : ∀ j, j + 1 ≤ n - 1 → x j < x (j + 1)) (hv : x (n - 1) ≤ v) :
    scanIdx n x v = 0 := by
  apply scanIdx_of_none
  intro j hj1 hj2
  have : x j ≤ x (n - 1) := table_mono_le n x hm j (n - 1) hj2 (le_refl _)
  exact not_lt.mpr (le_trans this hv)

theorem clampIdx_eq_specWindowIdx (n : ℕ) (x : ℕ → ℝ) (v : ℝ) (hn : 4 ≤ n)
    (hm : ∀ j, j + 1 ≤ n - 1 → x j < x (j + 1)) (hv : v < x (n - 1)) :
    clampIdx n x v = specWindowIdx n x v := by
  rw [clampIdx_eq_clamp n x v hn, specWindowIdx,
    scanIdx_eq_findGreatest n x v hn hm hv]

/-! ## Embedded optical-constant tables (src/triangle.cpp, lines 140-156 and 209-308) -/

/-- Photon energies (eV) of the silver table embedded in epsAg (49 entries). -/
def agEnergyQ : List ℚ := [
  0.64, 0.77, 0.89, 1.02, 1.14, 1.26, 1.39, 1.51, 1.64, 1.76,
  1.88, 2.01, 2.13, 2.26, 2.38, 2.50, 2.63, 2.75, 2.88, 3.00,
  3.12, 3.25, 3.37, 3.50, 3.62, 3.74, 3.87, 3.99, 4.12, 4.24,
  4.36, 4.49, 4.61, 4.74, 4.86, 4.98, 5.11, 5.23, 5.36, 5.48,
  5.60, 5.73, 5.85, 5.98, 6.10, 6.22, 6.35, 6.47, 6.60]

/-- Refractive indices of the silver table embedded in epsAg. -/
def agNQ : List ℚ := [
  0.24, 0.15, 0.13, 0.09, 0.04, 0.04, 0.04, 0.04, 0.03, 0.04,
  0.05, 0.06, 0.05, 0.06, 0.05, 0.05, 0.05, 0.04, 0.04, 0.05,
  0.05, 0.05, 0.07, 0.10, 0.14, 0.17, 0.81, 1.13, 1.34, 1.39,
  1.41, 1.41, 1.38, 1.35, 1.33, 1.31, 1.30, 1.28, 1.28, 1.26,
  1.25, 1.22, 1.20, 1.18, 1.15, 1.14, 1.12, 1.10, 1.07]

/-- Extinction coefficients of the silver table embedded in epsAg. -/
def agKQ : List ℚ := [
  14.080, 11.85, 10.10, 8.828, 7.795, 6.992, 6.312, 5.727, 5.242, 4.838,
  4.483, 4.152, 3.858, 3.586, 3.324, 3.093, 2.869, 2.657, 2.462, 2.275,
  2.070, 1.864, 1.657, 1.419, 1.142, 0.829, 0.392, 0.616, 0.964, 1.161,
  1.264, 1.331, 1.372, 1.387, 1.393, 1.389, 1.378, 1.367, 1.357, 1.344,
  1.342, 1.336, 1.325, 1.312, 1.296, 1.277, 1.255, 1.232, 1.212]

/-- Photon energies (eV) of the gold table embedded in epsAu (448 entries). -/
def auEnergyQ : List ℚ := [
  0.0497329, 0.0516601, 0.0535569, 0.0554739, 0.0574001, 0.0592942, 0.0612268, 0.0631284, 0.0650494, 0.0669461,
  0.0688801, 0.0707672, 0.0726754, 0.0745994, 0.0765334, 0.0784214, 0.0803527, 0.0822722, 0.0841712, 0.0861001,
  0.0879944, 0.0899088, 0.0918401, 0.0937144, 0.0956668, 0.0975485, 0.0995058, 0.101377, 0.10332, 0.10525,
  0.10716, 0.109045, 0.110997, 0.112815, 0.1148, 0.116636, 0.118645, 0.12049, 0.122393, 0.124345,
  0.126257, 0.128176, 0.130085, 0.131996, 0.133907, 0.135828, 0.13773, 0.139653, 0.141567, 0.143467,
  0.145385, 0.147302, 0.149217, 0.151126, 0.153048, 0.154961, 0.156863, 0.158771, 0.160685, 0.162602,
  0.164523, 0.166422, 0.168342, 0.170261, 0.172176, 0.174086, 0.175989, 0.177908, 0.179818, 0.181742,
  0.183653, 0.18555, 0.187486, 0.189376, 0.191304, 0.193212, 0.195128, 0.197051, 0.198948, 0.200849,
  0.202787, 0.204696, 0.206606, 0.208517, 0.210428, 0.212338, 0.214246, 0.216151, 0.21809, 0.219986,
  0.221915, 0.223839, 0.225713, 0.227661, 0.229558, 0.231487, 0.233404, 0.235309, 0.237199, 0.239121,
  0.241027, 0.242963, 0.244883, 0.246784, 0.248665, 0.250625, 0.252514, 0.254431, 0.256325, 0.258247,
  0.260143, 0.262068, 0.263965, 0.265889, 0.267842, 0.269707, 0.271657, 0.273575, 0.275459, 0.27737,
  0.279307, 0.281207, 0.283134, 0.285021, 0.286934, 0.288873, 0.29077, 0.292692, 0.294569, 0.296542,
  0.298398, 0.300349, 0.302253, 0.304181, 0.306058, 0.307959, 0.309883, 0.311831, 0.313725, 0.315642,
  0.317582, 0.319465, 0.321369, 0.323296, 0.325247, 0.327135, 0.329045, 0.330978, 0.332843, 0.334731,
  0.336639, 0.33857, 0.340522, 0.342403, 0.344305, 0.346228, 0.348172, 0.35004, 0.352028, 0.353937,
  0.355765, 0.357715, 0.359687, 0.361575, 0.363483, 0.365412, 0.367252, 0.36922, 0.371099, 0.372997,
  0.374914, 0.376852, 0.378809, 0.38067, 0.382549, 0.384566, 0.386364, 0.3883, 0.390256, 0.392107,
  0.394101, 0.395989, 0.397895, 0.39982, 0.401763, 0.403594, 0.405575, 0.407441, 0.409324, 0.411224,
  0.413143, 0.415079, 0.417034, 0.419007, 0.420856, 0.422721, 0.424749, 0.426649, 0.428566, 0.430351,
  0.432302, 0.43427, 0.436103, 0.438107, 0.439972, 0.441854, 0.443752, 0.445666, 0.447596, 0.449544,
  0.451508, 0.453324, 0.455322, 0.457169, 0.459031, 0.461079, 0.462973, 0.464883, 0.466808, 0.468749,
  0.470528, 0.472501, 0.47449, 0.476313, 0.47815, 0.480187, 0.482054, 0.483935, 0.485831, 0.487743,
  0.489669, 0.491611, 0.493568, 0.49554, 0.497329, 0.499332, 0.501149, 0.503183, 0.505027, 0.506885,
  0.508757, 0.510854, 0.512755, 0.514671, 0.518329, 0.520286, 0.522259, 0.524246, 0.526025, 0.528042,
  0.529847, 0.533724, 0.535569, 0.537426, 0.539531, 0.543314, 0.545225, 0.54715, 0.549088, 0.55276,
  0.554739, 0.556732, 0.558487, 0.562287, 0.564334, 0.566138, 0.570042, 0.571883, 0.575867, 0.577745,
  0.579636, 0.583455, 0.585383, 0.589278, 0.590964, 0.594934, 0.596939, 0.600699, 0.60245, 0.60628,
  0.608362, 0.612268, 0.614087, 0.617759, 0.619921, 0.623036, 0.626183, 0.629361, 0.632572, 0.635816,
  0.639094, 0.642405, 0.645751, 0.649132, 0.652548, 0.656001, 0.65949, 0.663017, 0.666582, 0.670185,
  0.673827, 0.677509, 0.681232, 0.684995, 0.688801, 0.692649, 0.69654, 0.700476, 0.704456, 0.708481,
  0.712553, 0.716672, 0.720838, 0.725054, 0.729319, 0.733634, 0.738001, 0.74242, 0.746893, 0.751419,
  0.756001, 0.760639, 0.765334, 0.770088, 0.774901, 0.779775, 0.78471, 0.789708, 0.79477, 0.799898,
  0.805092, 0.810354, 0.815685, 0.821087, 0.826561, 0.832109, 0.837731, 0.84343, 0.849207, 0.855063,
  0.861001, 0.867022, 0.918401, 0.925255, 0.932212, 0.939274, 0.946444, 0.953724, 0.961118, 0.968626,
  0.976253, 0.984001, 0.991873, 0.999872, 1.008, 1.01626, 1.02466, 1.0332, 1.04188, 1.05071,
  1.05969, 1.06883, 1.07812, 1.08758, 1.09721, 1.107, 1.11697, 1.12713, 1.13747, 1.148,
  1.15873, 1.16966, 1.1808, 1.19216, 1.20373, 1.21553, 1.22757, 1.23984, 1.25237, 1.26514,
  1.27819, 1.2915, 1.3051, 1.31898, 1.33316, 1.34765, 1.36246, 1.3776, 1.39308, 1.40891,
  1.42511, 1.44168, 1.45864, 1.476, 1.49379, 1.512, 1.53067, 1.5498, 1.56942, 1.58954,
  1.61018, 1.63137, 1.65312, 1.67546, 1.69841, 1.722, 1.74626, 1.7712, 1.79687, 1.8233,
  1.85051, 1.87855, 1.90745, 1.93725, 1.968, 1.99974, 2.03253, 2.0664, 2.10143, 2.13766,
  2.17516, 2.214, 2.25426, 2.296, 2.33932, 2.38431, 2.43106, 2.47968, 2.53029, 2.583,
  2.63796, 2.69531, 2.7552, 2.81782, 2.88335, 2.952, 3.024, 3.0996, 3.17908, 3.26274,
  3.35092, 3.444, 3.54241, 3.64659, 3.7571, 3.87451, 3.99949, 4.13281]

/-- Refractive indices of the gold table embedded in epsAu. -/
def auNQ : List ℚ := [
  42.79, 40.92, 39.16, 37.49, 35.91, 34.41, 33, 31.66, 30.39, 29.19,
  28.05, 26.97, 25.94, 24.97, 24.04, 23.17, 22.33, 21.54, 20.78, 20.06,
  19.38, 18.72, 18.1, 17.51, 16.94, 16.4, 15.88, 15.38, 14.91, 14.46,
  14.02, 13.61, 13.21, 12.83, 12.46, 12.11, 11.77, 11.45, 11.14, 10.84,
  10.55, 10.27, 10.01, 9.749, 9.502, 9.263, 9.034, 8.812, 8.598, 8.392,
  8.193, 8, 7.814, 7.634, 7.461, 7.293, 7.13, 6.973, 6.82, 6.673,
  6.53, 6.392, 6.258, 6.127, 6.001, 5.879, 5.76, 5.645, 5.533, 5.424,
  5.319, 5.216, 5.117, 5.02, 4.926, 4.834, 4.745, 4.658, 4.574, 4.492,
  4.412, 4.334, 4.258, 4.184, 4.112, 4.042, 3.973, 3.906, 3.841, 3.778,
  3.716, 3.655, 3.596, 3.539, 3.482, 3.427, 3.374, 3.321, 3.27, 3.22,
  3.171, 3.123, 3.077, 3.031, 2.986, 2.942, 2.899, 2.858, 2.817, 2.776,
  2.737, 2.699, 2.661, 2.624, 2.588, 2.553, 2.518, 2.484, 2.451, 2.418,
  2.386, 2.355, 2.324, 2.294, 2.264, 2.235, 2.207, 2.179, 2.152, 2.125,
  2.098, 2.072, 2.047, 2.022, 1.998, 1.974, 1.95, 1.927, 1.904, 1.881,
  1.859, 1.838, 1.817, 1.796, 1.775, 1.755, 1.735, 1.716, 1.697, 1.678,
  1.659, 1.641, 1.623, 1.605, 1.588, 1.571, 1.554, 1.538, 1.521, 1.505,
  1.49, 1.474, 1.459, 1.444, 1.429, 1.414, 1.4, 1.386, 1.372, 1.358,
  1.345, 1.331, 1.318, 1.305, 1.293, 1.28, 1.268, 1.256, 1.244, 1.232,
  1.22, 1.209, 1.197, 1.186, 1.175, 1.164, 1.153, 1.143, 1.132, 1.122,
  1.112, 1.102, 1.092, 1.082, 1.073, 1.063, 1.054, 1.045, 1.036, 1.027,
  1.018, 1.009, 1, 0.9919, 0.9835, 0.9752, 0.967, 0.9589, 0.9509, 0.943,
  0.9352, 0.9275, 0.9199, 0.9123, 0.9049, 0.8976, 0.8904, 0.8832, 0.8761, 0.8692,
  0.8623, 0.8554, 0.8487, 0.8421, 0.8355, 0.829, 0.8226, 0.8162, 0.8099, 0.8037,
  0.7976, 0.7916, 0.7856, 0.7797, 0.7738, 0.768, 0.7623, 0.7566, 0.7511, 0.7455,
  0.7401, 0.7347, 0.7293, 0.724, 0.7136, 0.7085, 0.7034, 0.6984, 0.6935, 0.6886,
  0.6837, 0.6742, 0.6695, 0.6649, 0.6603, 0.6512, 0.6468, 0.6423, 0.638, 0.6294,
  0.6252, 0.621, 0.6168, 0.6087, 0.6047, 0.6007, 0.5929, 0.589, 0.5814, 0.5776,
  0.5739, 0.5666, 0.563, 0.5559, 0.5524, 0.5455, 0.5421, 0.5354, 0.5321, 0.5256,
  0.5224, 0.516, 0.5129, 0.5068, 0.5031, 0.4989, 0.4942, 0.4896, 0.4851, 0.4805,
  0.476, 0.4715, 0.4671, 0.4627, 0.4583, 0.454, 0.4497, 0.4454, 0.4412, 0.4369,
  0.4328, 0.4286, 0.4245, 0.4204, 0.4163, 0.4123, 0.4082, 0.4042, 0.4003, 0.3963,
  0.3924, 0.3885, 0.3847, 0.3808, 0.377, 0.3732, 0.3695, 0.3657, 0.362, 0.3583,
  0.3546, 0.351, 0.3474, 0.3437, 0.3402, 0.3366, 0.3331, 0.3295, 0.326, 0.3226,
  0.3191, 0.3157, 0.3123, 0.3089, 0.3055, 0.3021, 0.2988, 0.2955, 0.2922, 0.2889,
  0.2857, 0.2824, 0.2551, 0.252, 0.249, 0.246, 0.243, 0.24, 0.2371, 0.2342,
  0.2313, 0.2281, 0.225, 0.2218, 0.2187, 0.2157, 0.2126, 0.2096, 0.2066, 0.2036,
  0.2007, 0.1978, 0.1949, 0.1921, 0.1893, 0.1865, 0.1837, 0.181, 0.1783, 0.1757,
  0.1731, 0.1705, 0.168, 0.1655, 0.163, 0.1606, 0.1582, 0.1559, 0.1536, 0.1514,
  0.1493, 0.1471, 0.1451, 0.1431, 0.1412, 0.1393, 0.1375, 0.1358, 0.1342, 0.1326,
  0.1312, 0.1298, 0.1286, 0.1275, 0.1265, 0.1256, 0.1249, 0.1244, 0.124, 0.1239,
  0.1239, 0.1242, 0.1248, 0.1257, 0.1268, 0.1284, 0.1304, 0.1328, 0.1358, 0.1394,
  0.1436, 0.1487, 0.1546, 0.1616, 0.1698, 0.1794, 0.1908, 0.2041, 0.2199, 0.2388,
  0.2617, 0.2899, 0.3256, 0.3724, 0.4363, 0.5263, 0.6527, 0.8197, 1.011, 1.193,
  1.333, 1.422, 1.472, 1.505, 1.537, 1.567, 1.585, 1.588, 1.585, 1.588,
  1.606, 1.637, 1.671, 1.695, 1.701, 1.685, 1.649, 1.596]

/-- Extinction coefficients of the gold table embedded in epsAu. -/
def auKQ : List ℚ := [
  137.5, 133.9, 130.4, 127.1, 124, 121, 118.2, 115.5, 112.9, 110.4,
  108.1, 105.8, 103.6, 101.5, 99.47, 97.52, 95.64, 93.83, 92.08, 90.39,
  88.76, 87.18, 85.66, 84.18, 82.76, 81.37, 80.03, 78.73, 77.47, 76.25,
  75.07, 73.91, 72.8, 71.71, 70.65, 69.63, 68.63, 67.65, 66.71, 65.78,
  64.89, 64.01, 63.16, 62.33, 61.52, 60.73, 59.96, 59.2, 58.47, 57.75,
  57.05, 56.37, 55.7, 55.04, 54.4, 53.78, 53.17, 52.57, 51.98, 51.41,
  50.85, 50.3, 49.76, 49.24, 48.72, 48.21, 47.72, 47.23, 46.76, 46.29,
  45.83, 45.38, 44.94, 44.51, 44.08, 43.67, 43.26, 42.85, 42.46, 42.07,
  41.69, 41.32, 40.95, 40.59, 40.23, 39.88, 39.54, 39.2, 38.87, 38.54,
  38.22, 37.9, 37.59, 37.29, 36.98, 36.69, 36.4, 36.11, 35.82, 35.55,
  35.27, 35, 34.73, 34.47, 34.21, 33.96, 33.71, 33.46, 33.21, 32.97,
  32.74, 32.5, 32.27, 32.04, 31.82, 31.6, 31.38, 31.16, 30.95, 30.74,
  30.53, 30.33, 30.13, 29.93, 29.73, 29.54, 29.34, 29.15, 28.97, 28.78,
  28.6, 28.42, 28.24, 28.07, 27.89, 27.72, 27.55, 27.38, 27.22, 27.06,
  26.89, 26.73, 26.58, 26.42, 26.27, 26.11, 25.96, 25.81, 25.67, 25.52,
  25.38, 25.23, 25.09, 24.95, 24.81, 24.68, 24.54, 24.41, 24.28, 24.14,
  24.01, 23.89, 23.76, 23.63, 23.51, 23.39, 23.26, 23.14, 23.02, 22.91,
  22.79, 22.67, 22.56, 22.45, 22.33, 22.22, 22.11, 22, 21.89, 21.79,
  21.68, 21.57, 21.47, 21.37, 21.26, 21.16, 21.06, 20.96, 20.86, 20.77,
  20.67, 20.57, 20.48, 20.38, 20.29, 20.2, 20.11, 20.02, 19.93, 19.84,
  19.75, 19.66, 19.57, 19.49, 19.4, 19.32, 19.23, 19.15, 19.06, 18.98,
  18.9, 18.82, 18.74, 18.66, 18.58, 18.5, 18.43, 18.35, 18.27, 18.2,
  18.12, 18.05, 17.97, 17.9, 17.83, 17.75, 17.68, 17.61, 17.54, 17.47,
  17.4, 17.33, 17.26, 17.2, 17.13, 17.06, 17, 16.93, 16.86, 16.8,
  16.73, 16.67, 16.61, 16.54, 16.42, 16.36, 16.3, 16.24, 16.17, 16.11,
  16.06, 15.94, 15.88, 15.82, 15.76, 15.65, 15.59, 15.54, 15.48, 15.37,
  15.32, 15.26, 15.21, 15.1, 15.05, 15, 14.89, 14.84, 14.74, 14.69,
  14.64, 14.54, 14.49, 14.39, 14.35, 14.25, 14.2, 14.11, 14.06, 13.97,
  13.93, 13.84, 13.79, 13.7, 13.65, 13.59, 13.52, 13.46, 13.39, 13.32,
  13.25, 13.19, 13.12, 13.05, 12.99, 12.92, 12.85, 12.78, 12.72, 12.65,
  12.58, 12.52, 12.45, 12.38, 12.31, 12.25, 12.18, 12.11, 12.04, 11.98,
  11.91, 11.84, 11.77, 11.71, 11.64, 11.57, 11.5, 11.44, 11.37, 11.3,
  11.23, 11.16, 11.1, 11.03, 10.96, 10.89, 10.82, 10.76, 10.69, 10.62,
  10.55, 10.48, 10.41, 10.35, 10.28, 10.21, 10.14, 10.07, 10, 9.934,
  9.865, 9.796, 9.214, 9.145, 9.075, 9.005, 8.935, 8.865, 8.795, 8.725,
  8.655, 8.581, 8.506, 8.432, 8.358, 8.283, 8.208, 8.134, 8.059, 7.984,
  7.909, 7.834, 7.759, 7.683, 7.608, 7.532, 7.456, 7.38, 7.304, 7.228,
  7.152, 7.075, 6.999, 6.922, 6.845, 6.768, 6.69, 6.613, 6.535, 6.457,
  6.379, 6.301, 6.222, 6.143, 6.064, 5.985, 5.905, 5.825, 5.745, 5.664,
  5.583, 5.501, 5.42, 5.338, 5.255, 5.172, 5.088, 5.004, 4.92, 4.834,
  4.749, 4.662, 4.575, 4.487, 4.398, 4.308, 4.217, 4.126, 4.033, 3.938,
  3.843, 3.746, 3.647, 3.547, 3.444, 3.34, 3.232, 3.122, 3.009, 2.891,
  2.769, 2.641, 2.507, 2.364, 2.213, 2.058, 1.908, 1.787, 1.72, 1.716,
  1.758, 1.812, 1.855, 1.877, 1.887, 1.898, 1.911, 1.915, 1.904, 1.877,
  1.846, 1.825, 1.821, 1.835, 1.858, 1.881, 1.895, 1.888]
/-- A table list accessed as a C array of doubles: entry j (0 when out of
bounds, which never happens for the index ranges used). -/
def tableFun (l : List ℚ) : ℕ → ℝ := fun j => ((l.getD j 0 : ℚ) : ℝ)

/-- The energy column of the silver table as a real-valued array. -/
def agEnergy : ℕ → ℝ := tableFun agEnergyQ

/-- The refractive-index column of the silver table as a real-valued array. -/
def agN : ℕ → ℝ := tableFun agNQ

/-- The extinction-coefficient column of the silver table as a real-valued array. -/
def agK : ℕ → ℝ := tableFun agKQ

/-- The energy column of the gold table as a real-valued array. -/
def auEnergy : ℕ → ℝ := tableFun auEnergyQ

/-- The refractive-index column of the gold table as a real-valued array. -/
def auN : ℕ → ℝ := tableFun auNQ

/-- The extinction-coefficient column of the gold table as a real-valued array. -/
def auK : ℕ → ℝ := tableFun auKQ

theorem agEnergyQ_chain : agEnergyQ.Chain' (· < ·) := by
  simp only [agEnergyQ, List.chain'_cons, List.chain'_singleton]
  norm_num

theorem auEnergyQ_chain : auEnergyQ.Chain' (· < ·) := by
  simp only [auEnergyQ, List.chain'_cons, List.chain'_singleton]
  norm_num

theorem tableFun_strict (l : List ℚ) (h : l.Chain' (· < ·)) :
    ∀ j, j + 1 ≤ l.length - 1 → tableFun l j < tableFun l (j + 1) := by
  intro j hj
  have hj1 : j < l.length := by omega
  have hj2 : j + 1 < l.length := by omega
  have hq : l.get ⟨j, hj1⟩ < l.get ⟨j + 1, hj2⟩ := by
    rw [List.chain'_iff_get] at h
    exact h j (by omega)
  unfold tableFun
  rw [List.getD_eq_get l 0 hj1, List.getD_eq_get l 0 hj2]
  exact_mod_cast hq

theorem agEnergyQ_length : agEnergyQ.length = 49 := rfl

theorem auEnergyQ_length : auEnergyQ.length = 448 := rfl

theorem agEnergy_strict : ∀ j, j + 1 ≤ 48 → agEnergy j < agEnergy (j + 1) := by
  have h := tableFun_strict agEnergyQ agEnergyQ_chain
  rw [agEnergyQ_length] at h
  exact h

theorem auEnergy_strict : ∀ j, j + 1 ≤ 447 → auEnergy j < auEnergy (j + 1) := by
  have h := tableFun_strict auEnergyQ auEnergyQ_chain
  rw [auEnergyQ_length] at h
  exact h

/-! ## Tabulated dielectric functions (epsAg lines 133-169, epsAu lines 202-321) -/

/-- The permittivity value computed by epsAg after its range check: n and k
are interpolated at the photon energy and combined into (n^2-k^2) + i 2nk. -/
def epsAgVal (lam : ℝ) : ℂ :=
  let omega : ℝ := 1239.8 / lam
  let n_val := interpolate 49 agEnergy agN omega
  let k_val := interpolate 49 agEnergy agK omega
  ((n_val * n_val - k_val * k_val : ℝ) : ℂ) + Complex.I * 2 * (n_val : ℂ) * (k_val : ℂ)

/-- Embedding of epsAg: the guard reproduces the literal condition
(omega < energy[0]) && (omega > energy[num-1]) of the source, on which the
program prints a message and exits (modelled as none). -/
def epsAg (lam : ℝ) : Option ℂ :=
  let omega : ℝ := 1239.8 / lam
  if omega < agEnergy 0 ∧ omega > agEnergy 48 then none
  else some (epsAgVal lam)

/-- The permittivity value computed by epsAu after its range check. -/
def epsAuVal (lam : ℝ) : ℂ :=
  let omega : ℝ := 1239.8 / lam
  let n_val := interpolate 448 auEnergy auN omega
  let k_val := interpolate 448 auEnergy auK omega
  ((n_val * n_val - k_val * k_val : ℝ) : ℂ) + Complex.I * 2 * (n_val : ℂ) * (k_val : ℂ)

/-- Embedding of epsAu, with the same literal guard as the source. -/
def epsAu (lam : ℝ) : Option ℂ :=
  let omega : ℝ := 1239.8 / lam
  if omega < auEnergy 0 ∧ omega > auEnergy 447 then none
  else some (epsAuVal lam)

theorem agEnergy_first_lt_last : agEnergy 0 < agEnergy 48 := by
  have h : (0.64 : ℚ) < 6.60 := by norm_num
  unfold agEnergy tableFun
  rw [show agEnergyQ.getD 0 0 = 0.64 from rfl, show agEnergyQ.getD 48 0 = 6.60 from rfl]
  exact_mod_cast h

theorem auEnergy_first_lt_last : auEnergy 0 < auEnergy 447 := by
  have h : (0.0497329 : ℚ) < 4.13281 := by norm_num
  unfold auEnergy tableFun
  rw [show auEnergyQ.getD 0 0 = 0.0497329 from rfl,
    show auEnergyQ.getD 447 0 = 4.13281 from rfl]
  exact_mod_cast h

theorem epsAg_guard_unsat (w : ℝ) : ¬(w < agEnergy 0 ∧ w > agEnergy 48) := by
  rintro ⟨h1, h2⟩
  have := agEnergy_first_lt_last
  linarith

theorem epsAu_guard_unsat (w : ℝ) : ¬(w < auEnergy 0 ∧ w > auEnergy 447) := by
  rintro ⟨h1, h2⟩
  have := auEnergy_first_lt_last
  linarith

theorem epsAg_eq_some (lam : ℝ) : epsAg lam = some (epsAgVal lam) := by
  unfold epsAg
  exact if_neg (epsAg_guard_unsat (1239.8 / lam))

theorem epsAu_eq_some (lam : ℝ) : epsAu lam = some (epsAuVal lam) := by
  unfold epsAu
  exact if_neg (epsAu_guard_unsat (1239.8 / lam))

/-! ## Totality of the tabulated dielectric functions -/

/-- All four Lagrange denominators of the window chosen by interpolate are
nonzero for table x and query v. -/
def lagrangeDenomsNonzero (n : ℕ) (x : ℕ → ℝ) (v : ℝ) : Prop :=
  let i := clampIdx n x v
  (x (i-1) - x i) * (x (i-1) - x (i+1)) * (x (i-1) - x (i+2)) ≠ 0 ∧
  (x i - x (i-1)) * (x i - x (i+1)) * (x i - x (i+2)) ≠ 0 ∧
  (x (i+1) - x (i-1)) * (x (i+1) - x i) * (x (i+1) - x (i+2)) ≠ 0 ∧
  (x (i+2) - x (i-1)) * (x (i+2) - x i) * (x (i+2) - x (i+1)) ≠ 0

theorem denoms_nonzero_of_strict (n : ℕ) (x : ℕ → ℝ) (v : ℝ) (hn : 4 ≤ n)
    (hm : ∀ j, j + 1 ≤ n - 1 → x j < x (j + 1)) :
    lagrangeDenomsNonzero n x v := by
  have h1 := clampIdx_ge_one n x v hn
  have h2 := clampIdx_le n x v hn
  unfold lagrangeDenomsNonzero
  set i := clampIdx n x v with hi
  have e1 : x (i-1) < x i := table_mono_lt n x hm (i-1) i (by omega) (by omega)
  have e2 : x i < x (i+1) := table_mono_lt n x hm i (i+1) (by omega) (by omega)
  have e3 : x (i+1) < x (i+2) := table_mono_lt n x hm (i+1) (i+2) (by omega) (by omega)
  have e12 : x (i-1) < x (i+1) := lt_trans e1 e2
  have e13 : x (i-1) < x (i+2) := lt_trans e12 e3
  have e23 : x i < x (i+2) := lt_trans e2 e3
  refine ⟨?_, ?_, ?_, ?_⟩
  · exact mul_ne_zero (mul_ne_zero (sub_ne_zero.mpr (ne_of_lt e1))
      (sub_ne_zero.mpr (ne_of_lt e12))) (sub_ne_zero.mpr (ne_of_lt e13))
  · exact mul_ne_zero (mul_ne_zero (sub_ne_zero.mpr (ne_of_gt e1))
      (sub_ne_zero.mpr (ne_of_lt e2))) (sub_ne_zero.mpr (ne_of_lt e23))
  · exact mul_ne_zero (mul_ne_zero (sub_ne_zero.mpr (ne_of_gt e12))
      (sub_ne_zero.mpr (ne_of_gt e2))) (sub_ne_zero.mpr (ne_of_lt e3))
  · exact mul_ne_zero (mul_ne_zero (sub_ne_zero.mpr (ne_of_gt e13))
      (sub_ne_zero.mpr (ne_of_gt e23))) (sub_ne_zero.mpr (ne_of_gt e3))

/-- C9: the out-of-range guard of epsAg and epsAu is unsatisfiable, because
the first table energy is below the last one while the guard demands the
query to be below the first and above the last simultaneously; hence both
dielectric functions return a value for every positive wavelength, and on
the strictly increasing embedded tables every Lagrange denominator used by
interpolate is nonzero. -/
theorem epsAg_epsAu_total_despite_guard (lam : ℝ) (hlam : 0 < lam) :
    (epsAg lam).isSome ∧ (epsAu lam).isSome ∧
    agEnergy 0 < agEnergy 48 ∧ auEnergy 0 < auEnergy 447 ∧
    (∀ w : ℝ, ¬(w < agEnergy 0 ∧ w > agEnergy 48)) ∧
    (∀ w : ℝ, ¬(w < auEnergy 0 ∧ w > auEnergy 447)) ∧
    lagrangeDenomsNonzero 49 agEnergy (1239.8 / lam) ∧
    lagrangeDenomsNonzero 448 auEnergy (1239.8 / lam) := by
  refine ⟨?_, ?_, agEnergy_first_lt_last, auEnergy_first_lt_last,
    epsAg_guard_unsat, epsAu_guard_unsat, ?_, ?_⟩
  · rw [epsAg_eq_some]; rfl
  · rw [epsAu_eq_some]; rfl
  · exact denoms_nonzero_of_strict 49 agEnergy _ (by norm_num) agEnergy_strict
  · exact denoms_nonzero_of_strict 448 auEnergy _ (by norm_num) auEnergy_strict

/-- Witness for the totality theorem at the concrete wavelength 500 nm. -/
theorem epsAg_epsAu_total_despite_guard_witness :
    (epsAg 500).isSome ∧ (epsAu 500).isSome :=
  ⟨(epsAg_epsAu_total_despite_guard 500 (by norm_num)).1,
   (epsAg_epsAu_total_despite_guard 500 (by norm_num)).2.1⟩

/-- C1 (failing behaviour): at wavelength 2000 nm the silver photon energy
0.6199 eV is below the silver table minimum 0.64 eV, and at wavelength
25000 nm the gold photon energy is below the gold table minimum, yet both
epsAg and epsAu succeed instead of failing with the out-of-range error. -/
theorem epsAg_epsAu_succeed_out_of_range :
    ((1239.8 / 2000 : ℝ) < agEnergy 0 ∧ (epsAg 2000).isSome) ∧
    ((1239.8 / 25000 : ℝ) < auEnergy 0 ∧ (epsAu 25000).isSome) := by
  have hag : agEnergy 0 = ((0.64 : ℚ) : ℝ) := by
    unfold agEnergy tableFun
    rw [show agEnergyQ.getD 0 0 = 0.64 from rfl]
  have hau : auEnergy 0 = ((0.0497329 : ℚ) : ℝ) := by
    unfold auEnergy tableFun
    rw [show auEnergyQ.getD 0 0 = 0.0497329 from rfl]
  refine ⟨⟨?_, ?_⟩, ⟨?_, ?_⟩⟩
  · rw [hag]; push_cast; norm_num
  · rw [epsAg_eq_some]; rfl
  · rw [hau]; push_cast; norm_num
  · rw [epsAu_eq_some]; rfl

/-! ## Size-dependent dielectric functions (epsAgSD lines 175-195, epsAuSD lines 327-347) -/

/-- Embedding of epsAgSD: the bulk silver permittivity plus a Drude
correction term with the silver constants of the source; the range-check
failure of epsAg propagates unchanged. -/
def epsAgSD (lam D : ℝ) : Option ℂ :=
  let vF : ℝ := 1.39e8
  let lam_inf : ℝ := 5.2e-6
  let omega_p : ℝ := 9.1
  let A : ℝ := 2.5
  let h_bar : ℝ := 6.582e-16
  let gam_inf : ℝ := h_bar * vF / lam_inf
  let gam_r : ℝ := gam_inf + A * h_bar * vF * 1.0e7 * (2 / D)
  let omega : ℝ := 1239.8 / lam
  (epsAg lam).map (fun e => e +
    (omega_p : ℂ) * (omega_p : ℂ) *
      ((1:ℂ) / ((1:ℂ) * (omega : ℂ) * (omega : ℂ) + Complex.I * (omega : ℂ) * (gam_inf : ℂ))
        - (1:ℂ) / ((1:ℂ) * (omega : ℂ) * (omega : ℂ) + Complex.I * (omega : ℂ) * (gam_r : ℂ))))

/-- Embedding of epsAuSD, with the gold constants of the source. -/
def epsAuSD (lam D : ℝ) : Option ℂ :=
  let vF : ℝ := 1.38e8
  let lam_inf : ℝ := 1.28e-6
  let omega_p : ℝ := 9.0
  let A : ℝ := 2.0
  let h_bar : ℝ := 6.582e-16
  let gam_inf : ℝ := h_bar * vF / lam_inf
  let gam_r : ℝ := gam_inf + A * h_bar * vF * 1.0e7 * (2 / D)
  let omega : ℝ := 1239.8 / lam
  (epsAu lam).map (fun e => e +
    (omega_p : ℂ) * (omega_p : ℂ) *
      ((1:ℂ) / ((1:ℂ) * (omega : ℂ) * (omega : ℂ) + Complex.I * (omega : ℂ) * (gam_inf : ℂ))
        - (1:ℂ) / ((1:ℂ) * (omega : ℂ) * (omega : ℂ) + Complex.I * (omega : ℂ) * (gam_r : ℂ))))

/-- Modelled from the spec (section 4.3): the Drude size correction
omega_p^2 (1/(omega^2 + i omega gamma_inf) - 1/(omega^2 + i omega gamma_r))
with gamma_inf = hbar vF / lam_inf and
gamma_r = gamma_inf + A hbar (vF 10^7) (2/D); the Fermi velocity vF is
given in cm/s while D is in nm, so vF is converted to nm/s. -/
def specSizeCorrection (vF lam_inf omega_p A omega D : ℝ) : ℂ :=
  let h_bar : ℝ := 6.582e-16
  let gam_inf : ℝ := h_bar * vF / lam_inf
  let gam_r : ℝ := gam_inf + A * h_bar * (vF * 1.0e7) * (2 / D)
  ((omega_p ^ 2 : ℝ) : ℂ) *
    (1 / (((omega ^ 2 : ℝ) : ℂ) + Complex.I * (omega : ℂ) * (gam_inf : ℂ))
      - 1 / (((omega ^ 2 : ℝ) : ℂ) + Complex.I * (omega : ℂ) * (gam_r : ℂ)))

/-- The silver size correction exactly as claim C3 words it, namely with
gamma_r = gamma_inf + A hbar vF (2/D) where vF = 1.39e8 is in cm/s and D is
in nm, without any unit-conversion factor. -/
def claimSizeCorrectionAg (omega D : ℝ) : ℂ :=
  let vF : ℝ := 1.39e8
  let lam_inf : ℝ := 5.2e-6
  let omega_p : ℝ := 9.1
  let A : ℝ := 2.5
  let h_bar : ℝ := 6.582e-16
  let gam_inf : ℝ := h_bar * vF / lam_inf
  let gam_r : ℝ := gam_inf + A * h_bar * vF * (2 / D)
  ((omega_p ^ 2 : ℝ) : ℂ) *
    (1 / (((omega ^ 2 : ℝ) : ℂ) + Complex.I * (omega : ℂ) * (gam_inf : ℂ))
      - 1 / (((omega ^ 2 : ℝ) : ℂ) + Complex.I * (omega : ℂ) * (gam_r : ℂ)))

/-- C3 (amended): both size-dependent dielectric functions equal the
tabulated bulk value plus the Drude correction of the spec, with the exact
material constants of the source and the Fermi velocity converted from cm/s
to nm/s before it multiplies 2/D. -/
theorem epsSD_eq_bulk_plus_correction (lam D : ℝ) (hlam : 0 < lam) (hD : 0 < D) :
    epsAgSD lam D = (epsAg lam).map
      (fun e => e + specSizeCorrection 1.39e8 5.2e-6 9.1 2.5 (1239.8 / lam) D) ∧
    epsAuSD lam D = (epsAu lam).map
      (fun e => e + specSizeCorrection 1.38e8 1.28e-6 9.0 2.0 (1239.8 / lam) D) := by
  constructor
  · unfold epsAgSD specSizeCorrection
    dsimp only
    congr 1
    funext e
    push_cast
    ring
  · unfold epsAuSD specSizeCorrection
    dsimp only
    congr 1
    funext e
    push_cast
    ring

/-- Witness for the amended C3 theorem at wavelength 500 nm, diameter 10 nm. -/
theorem epsSD_eq_bulk_plus_correction_witness :
    epsAgSD 500 10 = (epsAg 500).map
      (fun e => e + specSizeCorrection 1.39e8 5.2e-6 9.1 2.5 (1239.8 / 500) 10) :=
  (epsSD_eq_bulk_plus_correction 500 10 (by norm_num) (by norm_num)).1

/-- Counterexample to claim C3 as stated: at wavelength 500 nm and diameter
10 nm the code value differs from the claim formula, because the code
multiplies the Fermi velocity (given in cm/s) by 1e7 before forming the
surface-damping term while the claim formula does not. -/
theorem epsAgSD_ne_claim_formula :
    epsAgSD 500 10 ≠ (epsAg 500).map
      (fun e => e + claimSizeCorrectionAg (1239.8 / 500) 10) := by
  intro hEq
  unfold epsAgSD claimSizeCorrectionAg at hEq
  dsimp only at hEq
  rw [epsAg_eq_some 500] at hEq
  simp only [Option.map_some', Option.some.injEq, add_right_inj] at hEq
  have him := congrArg Complex.im hEq
  simp only [Complex.mul_im, Complex.mul_re, Complex.sub_im, Complex.sub_re,
    Complex.add_im, Complex.add_re, Complex.I_re, Complex.I_im, Complex.ofReal_re,
    Complex.ofReal_im, Complex.one_re, Complex.one_im, one_div, Complex.inv_im,
    Complex.inv_re, Complex.normSq_apply] at him
  norm_num at him

/-! ## Analytical resonance model (dipPolariz, lines 34-56) -/

/-- Embedding of dipPolariz: the fitted geometry regressions, the size
parameter, the prism volume and the assembled polarizability, with the
numeric constants of the source. -/
def dipPolariz (lam : ℝ) (eps_m : ℂ) (eps_h L H R : ℝ) : ℂ :=
  let beta : ℝ := -0.649487*(L/H)^(-1.27802 : ℝ) + 1.87718*(L/R)^(-0.928178 : ℝ)
    + 0.0784606*(H/R)^(-0.619604 : ℝ) + 0.617065
  let eps_c : ℝ := -1.73983*(L/H)^(0.904851 : ℝ) + 23.7005*(L/R)^(-9.71985 : ℝ)
    + 3.73666*(H/R)^(-0.416187 : ℝ) - 4.23387
  let a2 : ℝ := 1.35181*(L/H)^(-0.556507 : ℝ) + 1.13818*(L/R)^(-0.483608 : ℝ)
    - 0.287856*(H/R)^(-0.468685 : ℝ) - 0.0564038
  let a4 : ℝ := -2.58813*(L/H)^(-0.447242 : ℝ) - 2.62882*(L/R)^(-2.97322 : ℝ)
    - 0.254773*(H/R)^(-0.125501 : ℝ) + 0.702526
  let s : ℝ := Real.sqrt eps_h * L / lam
  let V0 : ℝ := 0.25 * Real.sqrt 3 * L * L * H
  let V1 : ℝ := V0 * beta
  let Arc : ℂ := (1:ℂ) * (s:ℂ) * (s:ℂ) * (a2:ℂ)
    + 4 * (Real.pi:ℂ) * (Real.pi:ℂ) * Complex.I * (V1:ℂ) * (s:ℂ) * (s:ℂ) * (s:ℂ)
      / (3 * (L:ℂ) * (L:ℂ) * (L:ℂ))
    + (1:ℂ) * (s:ℂ) * (s:ℂ) * (s:ℂ) * (s:ℂ) * (a4:ℂ)
  ((1 / (4 * Real.pi) : ℝ) : ℂ) * (V1:ℂ)
    / ((1:ℂ) / (eps_m / (eps_h:ℂ) - 1) - (1:ℂ) / ((eps_c:ℂ) - 1) - Arc)

/-- Modelled from the spec (section 4.5): the polarizability written exactly
as the specification words it, with V0 = (sqrt 3/4) L^2 H, the radiative
correction s^2 a2 + i (4 pi^2/3)(V1/L^3) s^3 + s^4 a4, and a denominator
that is a difference of three terms; the fitted regression constants are
the ones of the source, which the spec requires to be reproduced exactly. -/
def specDipPolariz (lam : ℝ) (eps_m : ℂ) (eps_h L H R : ℝ) : ℂ :=
  let beta : ℝ := -0.649487*(L/H)^(-1.27802 : ℝ) + 1.87718*(L/R)^(-0.928178 : ℝ)
    + 0.0784606*(H/R)^(-0.619604 : ℝ) + 0.617065
  let eps_c : ℝ := -1.73983*(L/H)^(0.904851 : ℝ) + 23.7005*(L/R)^(-9.71985 : ℝ)
    + 3.73666*(H/R)^(-0.416187 : ℝ) - 4.23387
  let a2 : ℝ := 1.35181*(L/H)^(-0.556507 : ℝ) + 1.13818*(L/R)^(-0.483608 : ℝ)
    - 0.287856*(H/R)^(-0.468685 : ℝ) - 0.0564038
  let a4 : ℝ := -2.58813*(L/H)^(-0.447242 : ℝ) - 2.62882*(L/R)^(-2.97322 : ℝ)
    - 0.254773*(H/R)^(-0.125501 : ℝ) + 0.702526
  let s : ℝ := Real.sqrt eps_h * L / lam
  let V0 : ℝ := (Real.sqrt 3 / 4) * L^2 * H
  let V1 : ℝ := V0 * beta
  let Arc : ℂ := ((s^2 * a2 : ℝ) : ℂ)
    + Complex.I * ((4 * Real.pi^2 / 3 : ℝ) : ℂ) * ((V1 / L^3 : ℝ) : ℂ) * ((s^3 : ℝ) : ℂ)
    + ((s^4 * a4 : ℝ) : ℂ)
  ((1 / (4 * Real.pi) : ℝ) : ℂ) * (V1:ℂ)
    / ((1:ℂ) / (eps_m / (eps_h:ℂ) - 1) - (1:ℂ) / ((eps_c:ℂ) - 1) - Arc)

theorem ofReal_ofScientific (m : ℕ) (s : Bool) (e : ℕ) :
    ((OfScientific.ofScientific m s e : ℝ) : ℂ) = (OfScientific.ofScientific m s e : ℂ) := by
  rw [← @Rat.cast_ofScientific ℝ _ m s e, ← @Rat.cast_ofScientific ℂ _ m s e,
    Complex.ofReal_ratCast]

/-- C2: dipPolariz computes exactly the polarizability formula of the spec. -/
theorem dipPolariz_eq_spec (lam : ℝ) (eps_m : ℂ) (eps_h L H R : ℝ)
    (hlam : 0 < lam) (heps : 0 < eps_h) (hL : 0 < L) (hH : 0 < H) (hR : 0 < R) :
    dipPolariz lam eps_m eps_h L H R = specDipPolariz lam eps_m eps_h L H R := by
  unfold dipPolariz specDipPolariz
  dsimp only
  push_cast [ofReal_ofScientific]
  ring

/-- Witness for the C2 theorem at a concrete input. -/
theorem dipPolariz_eq_spec_witness :
    dipPolariz 500 Complex.I 1 50 20 2 = specDipPolariz 500 Complex.I 1 50 20 2 :=
  dipPolariz_eq_spec 500 Complex.I 1 50 20 2 (by norm_num) (by norm_num)
    (by norm_num) (by norm_num) (by norm_num)

/-! ## Cross sections (scatCSdip lines 62-73, extCSdip lines 79-90) -/

/-- Embedding of scatCSdip: recomputes the polarizability internally and
returns 8 pi k^4 |alpha|^2 1e-14 / 3 with k the host wavenumber. -/
def scatCSdip (lam : ℝ) (eps_m : ℂ) (eps_h L H R : ℝ) : ℝ :=
  let polariz : ℂ := dipPolariz lam eps_m eps_h L H R
  let k : ℝ := 2 * Real.pi * Real.sqrt eps_h / lam
  8 * Real.pi * k ^ (4:ℕ) * (Complex.abs polariz) ^ (2:ℕ) * 1.0e-14 / 3

/-- Embedding of extCSdip: recomputes the polarizability internally and
returns 4 pi k Im(alpha) 1e-14. -/
def extCSdip (lam : ℝ) (eps_m : ℂ) (eps_h L H R : ℝ) : ℝ :=
  let polariz : ℂ := dipPolariz lam eps_m eps_h L H R
  let k : ℝ := 2 * Real.pi * Real.sqrt eps_h / lam
  4 * Real.pi * k * polariz.im * 1.0e-14

/-- Modelled from the spec (section 4.6): the scattering cross section
written as (8 pi/3) k^4 |alpha|^2 1e-14, recomputing alpha internally. -/
def specScatCS (lam : ℝ) (eps_m : ℂ) (eps_h L H R : ℝ) : ℝ :=
  let alpha : ℂ := dipPolariz lam eps_m eps_h L H R
  let k : ℝ := 2 * Real.pi * Real.sqrt eps_h / lam
  (8 * Real.pi / 3) * k ^ (4:ℕ) * (Complex.abs alpha) ^ (2:ℕ) * 1.0e-14

/-- Modelled from the spec (section 4.6): the extinction cross section
written as 4 pi k Im(alpha) 1e-14, recomputing alpha internally. -/
def specExtCS (lam : ℝ) (eps_m : ℂ) (eps_h L H R : ℝ) : ℝ :=
  let alpha : ℂ := dipPolariz lam eps_m eps_h L H R
  let k : ℝ := 2 * Real.pi * Real.sqrt eps_h / lam
  4 * Real.pi * k * alpha.im * 1.0e-14

/-- C6: both cross-section functions compute exactly the formulas of the
spec, with k = 2 pi sqrt(eps_h)/lambda and the polarizability recomputed
internally from the same inputs. -/
theorem crossSections_eq_spec (lam : ℝ) (eps_m : ℂ) (eps_h L H R : ℝ)
    (hlam : 0 < lam) (heps : 0 < eps_h) (hL : 0 < L) (hH : 0 < H) (hR : 0 < R) :
    scatCSdip lam eps_m eps_h L H R = specScatCS lam eps_m eps_h L H R ∧
    extCSdip lam eps_m eps_h L H R = specExtCS lam eps_m eps_h L H R := by
  constructor
  · unfold scatCSdip specScatCS
    dsimp only
    ring
  · unfold extCSdip specExtCS
    dsimp only

/-- Witness for the C6 theorem at a concrete input. -/
theorem crossSections_eq_spec_witness :
    scatCSdip 500 Complex.I 1 50 20 2 = specScatCS 500 Complex.I 1 50 20 2 :=
  (crossSections_eq_spec 500 Complex.I 1 50 20 2 (by norm_num) (by norm_num)
    (by norm_num) (by norm_num) (by norm_num)).1

/-- C7: the scattering cross section is nonnegative, and the extinction
cross section is nonnegative exactly when the imaginary part of the
computed polarizability is nonnegative (no clamping is applied). -/
theorem crossSections_nonneg (lam : ℝ) (eps_m : ℂ) (eps_h L H R : ℝ)
    (hlam : 0 < lam) (heps : 0 < eps_h) (hL : 0 < L) (hH : 0 < H) (hR : 0 < R) :
    0 ≤ scatCSdip lam eps_m eps_h L H R ∧
    (0 ≤ extCSdip lam eps_m eps_h L H R ↔
      0 ≤ (dipPolariz lam eps_m eps_h L H R).im) := by
  constructor
  · unfold scatCSdip
    dsimp only
    positivity
  · unfold extCSdip
    dsimp only
    have hc : 0 < 4 * Real.pi * (2 * Real.pi * Real.sqrt eps_h / lam) * 1.0e-14 := by
      have hs : 0 < Real.sqrt eps_h := Real.sqrt_pos.mpr heps
      have hp : 0 < Real.pi := Real.pi_pos
      positivity
    have hrw : ∀ t : ℝ, 4 * Real.pi * (2 * Real.pi * Real.sqrt eps_h / lam) * t * 1.0e-14
        = (4 * Real.pi * (2 * Real.pi * Real.sqrt eps_h / lam) * 1.0e-14) * t := by
      intro t
      ring
    rw [hrw]
    exact mul_nonneg_iff_of_pos_left hc

/-- Witness for the C7 theorem at a concrete input. -/
theorem crossSections_nonneg_witness :
    0 ≤ scatCSdip 500 Complex.I 1 50 20 2 :=
  (crossSections_nonneg 500 Complex.I 1 50 20 2 (by norm_num) (by norm_num)
    (by norm_num) (by norm_num) (by norm_num)).1

/-! ## Volume-equivalent sphere diameter (diameter, lines 353-358) -/

/-- Embedding of diameter(L, H): twice the cube root of
3 sqrt(3) L^2 H / (16 pi). -/
def diameter (L H : ℝ) : ℝ :=
  2 * (3 * Real.sqrt 3 * L * L * H / (16 * Real.pi)) ^ ((1:ℝ)/3)

theorem rpow_third_gt (a b : ℝ) (ha : 0 ≤ a) (h : a ^ (3:ℕ) < b) :
    a < b ^ ((1:ℝ)/3) := by
  have key : ((a ^ (3:ℕ) : ℝ)) ^ ((1:ℝ)/3) = a := by
    rw [← Real.rpow_natCast a 3, ← Real.rpow_mul ha]
    norm_num
  calc a = ((a ^ (3:ℕ) : ℝ)) ^ ((1:ℝ)/3) := key.symm
    _ < b ^ ((1:ℝ)/3) := Real.rpow_lt_rpow (pow_nonneg ha 3) h (by norm_num)

theorem rpow_third_lt (a b : ℝ) (ha : 0 ≤ a) (hb : 0 ≤ b) (h : b < a ^ (3:ℕ)) :
    b ^ ((1:ℝ)/3) < a := by
  have key : ((a ^ (3:ℕ) : ℝ)) ^ ((1:ℝ)/3) = a := by
    rw [← Real.rpow_natCast a 3, ← Real.rpow_mul ha]
    norm_num
  calc b ^ ((1:ℝ)/3) < ((a ^ (3:ℕ) : ℝ)) ^ ((1:ℝ)/3) :=
      Real.rpow_lt_rpow hb h (by norm_num)
    _ = a := key

theorem sqrt3_gt : (1.7320 : ℝ) < Real.sqrt 3 := by
  have h3 : Real.sqrt 3 ^ 2 = 3 := Real.sq_sqrt (by norm_num)
  have h3n : 0 ≤ Real.sqrt 3 := Real.sqrt_nonneg 3
  nlinarith

theorem sqrt3_lt : Real.sqrt 3 < (1.7321 : ℝ) := by
  have h3 : Real.sqrt 3 ^ 2 = 3 := Real.sq_sqrt (by norm_num)
  have h3n : 0 ≤ Real.sqrt 3 := Real.sqrt_nonneg 3
  nlinarith

theorem diameter_50_20_gt : (34.5 : ℝ) < diameter 50 20 := by
  unfold diameter
  have hX : (17.25 : ℝ) ^ (3:ℕ) < 3 * Real.sqrt 3 * 50 * 50 * 20 / (16 * Real.pi) := by
    rw [lt_div_iff (by positivity)]
    nlinarith [sqrt3_gt, Real.pi_lt_3141593]
  have h := rpow_third_gt 17.25 _ (by norm_num) hX
  linarith

theorem diameter_50_20_lt : diameter 50 20 < (34.7 : ℝ) := by
  unfold diameter
  have hX : 3 * Real.sqrt 3 * 50 * 50 * 20 / (16 * Real.pi) < (17.35 : ℝ) ^ (3:ℕ) := by
    rw [div_lt_iff (by positivity)]
    nlinarith [sqrt3_lt, Real.pi_gt_3141592]
  have hXpos : (0:ℝ) ≤ 3 * Real.sqrt 3 * 50 * 50 * 20 / (16 * Real.pi) := by
    have := Real.sqrt_nonneg (3:ℝ)
    positivity
  have h := rpow_third_lt 17.35 _ (by norm_num) hXpos hX
  linarith

/-- C8 (amended): diameter(L, H) equals twice the cube root of 3V/(4 pi)
with V = (sqrt 3/4) L^2 H the prism volume, and for L = 50, H = 20 its
value lies strictly between 34.5 and 34.7 nm (approximately 34.58 nm). -/
theorem diameter_eq_sphere_equivalent (L H : ℝ) (hL : 0 < L) (hH : 0 < H) :
    diameter L H = 2 * ((3 * ((Real.sqrt 3 / 4) * L^2 * H) / (4 * Real.pi)) ^ ((1:ℝ)/3)) ∧
    (34.5 : ℝ) < diameter 50 20 ∧ diameter 50 20 < (34.7 : ℝ) := by
  refine ⟨?_, diameter_50_20_gt, diameter_50_20_lt⟩
  unfold diameter
  congr 2
  ring

/-- Witness for the amended C8 theorem at L = 50, H = 20. -/
theorem diameter_eq_sphere_equivalent_witness :
    diameter 50 20
      = 2 * ((3 * ((Real.sqrt 3 / 4) * 50^2 * 20) / (4 * Real.pi)) ^ ((1:ℝ)/3)) :=
  (diameter_eq_sphere_equivalent 50 20 (by norm_num) (by norm_num)).1

/-- Counterexample to claim C8 as stated: diameter(50, 20) exceeds 34.5 nm,
so it is not approximately 34.3 nm even with a generous tolerance of 0.2. -/
theorem diameter_50_20_not_approx_34_3 : ¬ (|diameter 50 20 - 34.3| ≤ (0.2 : ℝ)) := by
  intro h
  have h1 := (abs_le.mp h).2
  have h2 := diameter_50_20_gt
  norm_num at h1
  linarith

/-! ## The size correction increases the real part of the permittivity -/

theorem drudeDen_re (w g : ℝ) :
    ((1:ℂ) * (w:ℂ) * (w:ℂ) + Complex.I * (w:ℂ) * (g:ℂ)).re = w * w := by
  simp

theorem drudeDen_im (w g : ℝ) :
    ((1:ℂ) * (w:ℂ) * (w:ℂ) + Complex.I * (w:ℂ) * (g:ℂ)).im = w * g := by
  simp

theorem drudeTerm_re (w g : ℝ) :
    ((1:ℂ) / ((1:ℂ) * (w:ℂ) * (w:ℂ) + Complex.I * (w:ℂ) * (g:ℂ))).re
      = (w * w) / ((w * w) * (w * w) + (w * g) * (w * g)) := by
  rw [one_div, Complex.inv_re, Complex.normSq_apply, drudeDen_re, drudeDen_im]

theorem drudeTerm_re_strict (w g1 g2 : ℝ) (hw : 0 < w) (hg1 : 0 ≤ g1) (hg : g1 < g2) :
    ((1:ℂ) / ((1:ℂ) * (w:ℂ) * (w:ℂ) + Complex.I * (w:ℂ) * (g2:ℂ))).re
      < ((1:ℂ) / ((1:ℂ) * (w:ℂ) * (w:ℂ) + Complex.I * (w:ℂ) * (g1:ℂ))).re := by
  rw [drudeTerm_re, drudeTerm_re]
  have ha : 0 < w * w := by positivity
  have hd1 : 0 < (w * w) * (w * w) + (w * g1) * (w * g1) := by positivity
  have h1 : w * g1 < w * g2 := by nlinarith
  have h2 : 0 ≤ w * g1 := by positivity
  have hlt : (w * g1) * (w * g1) < (w * g2) * (w * g2) := mul_self_lt_mul_self h2 h1
  exact div_lt_div_of_pos_left ha hd1 (by nlinarith)

theorem corr_re_pos (w g1 g2 p : ℝ) (hw : 0 < w) (hg1 : 0 ≤ g1) (hg : g1 < g2) :
    0 < ((p:ℂ) * (p:ℂ) *
      ((1:ℂ) / ((1:ℂ) * (w:ℂ) * (w:ℂ) + Complex.I * (w:ℂ) * (g1:ℂ))
        - (1:ℂ) / ((1:ℂ) * (w:ℂ) * (w:ℂ) + Complex.I * (w:ℂ) * (g2:ℂ)))).re
      ∨ p = 0 := by
  by_cases hp : p = 0
  · exact Or.inr hp
  · left
    have hstrict := drudeTerm_re_strict w g1 g2 hw hg1 hg
    have hre : ((p:ℂ) * (p:ℂ) *
        ((1:ℂ) / ((1:ℂ) * (w:ℂ) * (w:ℂ) + Complex.I * (w:ℂ) * (g1:ℂ))
          - (1:ℂ) / ((1:ℂ) * (w:ℂ) * (w:ℂ) + Complex.I * (w:ℂ) * (g2:ℂ)))).re
        = p * p * (((1:ℂ) / ((1:ℂ) * (w:ℂ) * (w:ℂ) + Complex.I * (w:ℂ) * (g1:ℂ))).re
          - ((1:ℂ) / ((1:ℂ) * (w:ℂ) * (w:ℂ) + Complex.I * (w:ℂ) * (g2:ℂ))).re) := by
      simp [Complex.mul_re, Complex.mul_im, Complex.sub_re, Complex.sub_im]
    rw [hre]
    have hpp : 0 < p * p := mul_self_pos.mpr hp
    nlinarith

/-- C10: for every positive wavelength and diameter, the size-corrected
permittivities have strictly larger real part than the tabulated bulk
values, for silver and for gold. -/
theorem sizeCorrection_increases_re (lam D : ℝ) (hlam : 0 < lam) (hD : 0 < D) :
    ∃ ea fa eu fu : ℂ, epsAg lam = some ea ∧ epsAgSD lam D = some fa ∧
      epsAu lam = some eu ∧ epsAuSD lam D = some fu ∧
      ea.re < fa.re ∧ eu.re < fu.re := by
  have hw : (0:ℝ) < 1239.8 / lam := by positivity
  have hposAg : (0:ℝ) < 2.5 * 6.582e-16 * 1.39e8 * 1.0e7 * (2 / D) := by positivity
  have hcAg := (corr_re_pos (1239.8 / lam) (6.582e-16 * 1.39e8 / 5.2e-6)
      (6.582e-16 * 1.39e8 / 5.2e-6 + 2.5 * 6.582e-16 * 1.39e8 * 1.0e7 * (2 / D)) 9.1
      hw (by norm_num) (by linarith)).resolve_right (by norm_num)
  have hposAu : (0:ℝ) < 2.0 * 6.582e-16 * 1.38e8 * 1.0e7 * (2 / D) := by positivity
  have hcAu := (corr_re_pos (1239.8 / lam) (6.582e-16 * 1.38e8 / 1.28e-6)
      (6.582e-16 * 1.38e8 / 1.28e-6 + 2.0 * 6.582e-16 * 1.38e8 * 1.0e7 * (2 / D)) 9.0
      hw (by norm_num) (by linarith)).resolve_right (by norm_num)
  refine ⟨epsAgVal lam,
    epsAgVal lam + ((9.1:ℝ):ℂ) * ((9.1:ℝ):ℂ) *
      ((1:ℂ) / ((1:ℂ) * ((1239.8 / lam : ℝ):ℂ) * ((1239.8 / lam : ℝ):ℂ)
          + Complex.I * ((1239.8 / lam : ℝ):ℂ) * ((6.582e-16 * 1.39e8 / 5.2e-6 : ℝ):ℂ))
        - (1:ℂ) / ((1:ℂ) * ((1239.8 / lam : ℝ):ℂ) * ((1239.8 / lam : ℝ):ℂ)
          + Complex.I * ((1239.8 / lam : ℝ):ℂ)
            * ((6.582e-16 * 1.39e8 / 5.2e-6
                + 2.5 * 6.582e-16 * 1.39e8 * 1.0e7 * (2 / D) : ℝ):ℂ))),
    epsAuVal lam,
    epsAuVal lam + ((9.0:ℝ):ℂ) * ((9.0:ℝ):ℂ) *
      ((1:ℂ) / ((1:ℂ) * ((1239.8 / lam : ℝ):ℂ) * ((1239.8 / lam : ℝ):ℂ)
          + Complex.I * ((1239.8 / lam : ℝ):ℂ) * ((6.582e-16 * 1.38e8 / 1.28e-6 : ℝ):ℂ))
        - (1:ℂ) / ((1:ℂ) * ((1239.8 / lam : ℝ):ℂ) * ((1239.8 / lam : ℝ):ℂ)
          + Complex.I * ((1239.8 / lam : ℝ):ℂ)
            * ((6.582e-16 * 1.38e8 / 1.28e-6
                + 2.0 * 6.582e-16 * 1.38e8 * 1.0e7 * (2 / D) : ℝ):ℂ))),
    epsAg_eq_some lam, ?_, epsAu_eq_some lam, ?_, ?_, ?_⟩
  · unfold epsAgSD
    dsimp only
    rw [epsAg_eq_some lam]
    rfl
  · unfold epsAuSD
    dsimp only
    rw [epsAu_eq_some lam]
    rfl
  · rw [Complex.add_re]
    linarith [hcAg]
  · rw [Complex.add_re]
    linarith [hcAu]

/-- Witness for the C10 theorem at wavelength 500 nm and diameter 10 nm. -/
theorem sizeCorrection_increases_re_witness :
    ∃ ea fa eu fu : ℂ, epsAg 500 = some ea ∧ epsAgSD 500 10 = some fa ∧
      epsAu 500 = some eu ∧ epsAuSD 500 10 = some fu ∧
      ea.re < fa.re ∧ eu.re < fu.re :=
  sizeCorrection_increases_re 500 10 (by norm_num) (by norm_num)

/-! ## Interpolation window and node reproduction (claims C4 and C5) -/

/-- C5 (amended): on a strictly increasing table of length n ≥ 4, the
interpolator reproduces every sample value y j exactly when queried at the
sample argument x j, for every j up to n-2; j = n-1 is excluded because the
index scan finds no entry exceeding x (n-1) and falls back to the leftmost
window. -/
theorem interpolate_at_node (n : ℕ) (x y : ℕ → ℝ) (j : ℕ) (hn : 4 ≤ n)
    (hm : ∀ j', j' + 1 ≤ n - 1 → x j' < x (j' + 1)) (hj : j ≤ n - 2) :
    interpolate n x y (x j) = y j := by
  have hscan : scanIdx n x (x j) = j := by
    have hfound := scanIdx_of_found n x (x j) (j + 1) (by omega) (by omega)
      (fun j' h1 h2 => not_lt.mpr (table_mono_le n x hm j' j (by omega) (by omega)))
      (hm j (by omega))
    simpa using hfound
  have hclamp := clampIdx_eq_clamp n x (x j) hn
  rw [hscan] at hclamp
  rw [interpolate_eq_lagrange4]
  have hi1 : 1 ≤ clampIdx n x (x j) := clampIdx_ge_one n x (x j) hn
  have hi3 : clampIdx n x (x j) ≤ n - 3 := clampIdx_le n x (x j) hn
  set i := clampIdx n x (x j) with hidef
  have e1 : x (i-1) < x i := table_mono_lt n x hm (i-1) i (by omega) (by omega)
  have e2 : x i < x (i+1) := table_mono_lt n x hm i (i+1) (by omega) (by omega)
  have e3 : x (i+1) < x (i+2) := table_mono_lt n x hm (i+1) (i+2) (by omega) (by omega)
  have hcase : j = i - 1 ∨ j = i ∨ j = i + 1 := by omega
  rcases hcase with hji | hji | hji
  · rw [hji]
    exact lagrange4_node0 _ _ _ _ _ _ _ _ (ne_of_lt e1) (ne_of_lt (e1.trans e2))
      (ne_of_lt (e1.trans (e2.trans e3)))
  · rw [hji]
    exact lagrange4_node1 _ _ _ _ _ _ _ _ (ne_of_gt e1) (ne_of_lt e2)
      (ne_of_lt (e2.trans e3))
  · rw [hji]
    exact lagrange4_node2 _ _ _ _ _ _ _ _ (ne_of_gt (e1.trans e2)) (ne_of_gt e2)
      (ne_of_lt e3)

/-- Witness for the amended C5 theorem: a length-4 table with quadratic
sample values, queried at the second node. -/
theorem interpolate_at_node_witness :
    interpolate 4 (fun t : ℕ => (t:ℝ)) (fun t : ℕ => (t:ℝ)^2)
      ((fun t : ℕ => (t:ℝ)) 1) = (fun t : ℕ => (t:ℝ)^2) 1 :=
  interpolate_at_node 4 (fun t : ℕ => (t:ℝ)) (fun t : ℕ => (t:ℝ)^2) 1
    (by norm_num) (fun j' hj' => by push_cast; linarith) (by norm_num)

/-- Counterexample to claim C5 as stated: a strictly increasing length-5
table whose sample values are 0 except the last one, queried at the last
sample argument; the interpolator evaluates the cubic through the first
four points and returns 0 instead of the sample value 1. -/
theorem interpolate_last_node_fails :
    (∀ a b : ℕ, a < b → (fun t : ℕ => (t:ℝ)) a < (fun t : ℕ => (t:ℝ)) b) ∧
    interpolate 5 (fun t : ℕ => (t:ℝ)) (fun t : ℕ => if t = 4 then (1:ℝ) else 0)
      ((fun t : ℕ => (t:ℝ)) 4)
      ≠ (fun t : ℕ => if t = 4 then (1:ℝ) else 0) 4 := by
  constructor
  · intro a b hab
    show (a:ℝ) < (b:ℝ)
    exact_mod_cast hab
  · have hscan : scanIdx 5 (fun t : ℕ => (t:ℝ)) ((fun t : ℕ => (t:ℝ)) 4) = 0 := by
      apply scanIdx_of_none
      intro j h1 h2
      apply not_lt.mpr
      show (j:ℝ) ≤ ((4:ℕ):ℝ)
      exact_mod_cast (show j ≤ 4 by omega)
    have hclamp : clampIdx 5 (fun t : ℕ => (t:ℝ)) ((fun t : ℕ => (t:ℝ)) 4) = 1 := by
      rw [clampIdx_eq_clamp _ _ _ (by norm_num), hscan]
      omega
    rw [interpolate_eq_lagrange4, hclamp]
    norm_num [lagrange4]

/-- C4 (amended): for every query strictly below the last table entry, the
window index computed by interpolate equals the clamped largest index with
x i ≤ v described by the spec, and the interpolated value is the value at v
of any cubic polynomial through the four window points; queries at or
beyond the last entry instead fall back to the leftmost window. -/
theorem interpolate_eq_cubic_window (n : ℕ) (x y : ℕ → ℝ) (v : ℝ) (hn : 4 ≤ n)
    (hm : ∀ j, j + 1 ≤ n - 1 → x j < x (j + 1)) (hv : v < x (n - 1)) :
    clampIdx n x v = specWindowIdx n x v ∧
    (∀ a0 a1 a2 a3 : ℝ,
      (∀ k, k < 4 → y (specWindowIdx n x v - 1 + k)
        = cubicEval a0 a1 a2 a3 (x (specWindowIdx n x v - 1 + k))) →
      interpolate n x y v = cubicEval a0 a1 a2 a3 v) := by
  have heq := clampIdx_eq_specWindowIdx n x v hn hm hv
  refine ⟨heq, ?_⟩
  intro a0 a1 a2 a3 hy
  rw [interpolate_eq_lagrange4]
  have hi1 : 1 ≤ clampIdx n x v := clampIdx_ge_one n x v hn
  have hi3 : clampIdx n x v ≤ n - 3 := clampIdx_le n x v hn
  rw [← heq] at hy
  set i := clampIdx n x v with hidef
  have e1 : x (i-1) < x i := table_mono_lt n x hm (i-1) i (by omega) (by omega)
  have e2 : x i < x (i+1) := table_mono_lt n x hm i (i+1) (by omega) (by omega)
  have e3 : x (i+1) < x (i+2) := table_mono_lt n x hm (i+1) (i+2) (by omega) (by omega)
  have hy0 := hy 0 (by norm_num)
  have hy1 := hy 1 (by norm_num)
  have hy2 := hy 2 (by norm_num)
  have hy3 := hy 3 (by norm_num)
  have g0 : i - 1 + 0 = i - 1 := by omega
  have g1 : i - 1 + 1 = i := by omega
  have g2 : i - 1 + 2 = i + 1 := by omega
  have g3 : i - 1 + 3 = i + 2 := by omega
  rw [g0] at hy0
  rw [g1] at hy1
  rw [g2] at hy2
  rw [g3] at hy3
  rw [hy0, hy1, hy2, hy3]
  exact lagrange4_cubic _ _ _ _ a0 a1 a2 a3 v (ne_of_lt e1) (ne_of_lt (e1.trans e2))
    (ne_of_lt (e1.trans (e2.trans e3))) (ne_of_lt e2) (ne_of_lt (e2.trans e3))
    (ne_of_lt e3)

/-- Witness for the amended C4 theorem: a length-4 table with cubic sample
values, queried between the second and third node. -/
theorem interpolate_eq_cubic_window_witness :
    interpolate 4 (fun t : ℕ => (t:ℝ)) (fun t : ℕ => (t:ℝ)^3) 1.5
      = cubicEval 0 0 0 1 1.5 :=
  (interpolate_eq_cubic_window 4 (fun t : ℕ => (t:ℝ)) (fun t : ℕ => (t:ℝ)^3) 1.5
    (by norm_num) (fun j hj => by push_cast; linarith)
    (by push_cast; norm_num)).2 0 0 0 1
    (fun k hk => by norm_num [cubicEval])

/-- Counterexample to claim C4 as stated: on the strictly increasing table
0,...,5 (n = 6) with sample values 0 except y 5 = 1, and query 5, the
spec's clamped largest-index window is the one at indices 2,3,4,5 and the
unique cubic through those four points has value 1 at the query, but
interpolate returns 0, computed on the leftmost window 0,1,2,3. -/
theorem interpolate_window_claim_fails :
    (∀ a b : ℕ, a < b → (fun t : ℕ => (t:ℝ)) a < (fun t : ℕ => (t:ℝ)) b) ∧
    specWindowIdx 6 (fun t : ℕ => (t:ℝ)) 5 = 3 ∧
    (∀ k, k < 4 → (fun t : ℕ => if t = 5 then (1:ℝ) else 0) (3 - 1 + k)
      = cubicEval (-4) (13/3) (-3/2) (1/6) ((fun t : ℕ => (t:ℝ)) (3 - 1 + k))) ∧
    cubicEval (-4) (13/3) (-3/2) (1/6) 5 = 1 ∧
    interpolate 6 (fun t : ℕ => (t:ℝ)) (fun t : ℕ => if t = 5 then (1:ℝ) else 0) 5 = 0 ∧
    interpolate 6 (fun t : ℕ => (t:ℝ)) (fun t : ℕ => if t = 5 then (1:ℝ) else 0) 5
      ≠ cubicEval (-4) (13/3) (-3/2) (1/6) 5 := by
  have hval : interpolate 6 (fun t : ℕ => (t:ℝ))
      (fun t : ℕ => if t = 5 then (1:ℝ) else 0) 5 = 0 := by
    have hscan : scanIdx 6 (fun t : ℕ => (t:ℝ)) 5 = 0 := by
      apply scanIdx_of_none
      intro j h1 h2
      apply not_lt.mpr
      show (j:ℝ) ≤ (5:ℝ)
      have hj : j ≤ 5 := by omega
      exact_mod_cast hj
    have hclamp : clampIdx 6 (fun t : ℕ => (t:ℝ)) 5 = 1 := by
      rw [clampIdx_eq_clamp _ _ _ (by norm_num), hscan]
      omega
    rw [interpolate_eq_lagrange4, hclamp]
    norm_num [lagrange4]
  refine ⟨?_, ?_, ?_, ?_, hval, ?_⟩
  · intro a b hab
    show (a:ℝ) < (b:ℝ)
    exact_mod_cast hab
  · unfold specWindowIdx
    norm_num
  · intro k hk
    interval_cases k <;> norm_num [cubicEval]
  · norm_num [cubicEval]
  · rw [hval]
    norm_num [cubicEval]

end
